import Mathlib

/-!
Verification of the MindForge goal-planning agent
(`supabase/functions/analyze-goal/index.ts` and the orchestrated agent
function): a shallow embedding of its schema validators, gateway retry
client, response parser, tool executors and orchestrator, together with
theorems settling the specification's claims about them.

JSON runtime values are modelled by `Value` (JS `undefined` included,
since validators receive possibly-missing object properties); JS numbers
are modelled as rationals, which is exact for every literal appearing in
the source and in the claims.
-/

namespace MindForge

-- ============================================
-- JS string primitives
-- ============================================

/-- The whitespace characters `String.prototype.trim` removes (the ASCII
ones; the inputs appearing in this development are ASCII). -/
def jsWhitespace (c : Char) : Bool :=
  c = ' ' || c = '\t' || c = '\n' || c = '\r' || c = '\x0c' || c = '\x0b'

/-- JS `s.trim()`. -/
def jsTrim (s : String) : String :=
  ⟨((s.data.dropWhile jsWhitespace).reverse.dropWhile jsWhitespace).reverse⟩

/-- JS `s.startsWith(pre)`. -/
def jsStartsWith (s pre : String) : Bool := pre.data.isPrefixOf s.data

/-- JS `s.endsWith(suf)`. -/
def jsEndsWith (s suf : String) : Bool := suf.data.isSuffixOf s.data

/-- JS `s.slice(n)` for `0 ≤ n`. -/
def jsDrop (s : String) (n : Nat) : String := ⟨s.data.drop n⟩

/-- JS `s.slice(0, -n)` for `0 < n`. -/
def jsDropRight (s : String) (n : Nat) : String := ⟨s.data.take (s.data.length - n)⟩

/-- JS `s.length` (code points; the sources' inputs are ASCII, where this
agrees with UTF-16 length). -/
def jsLength (s : String) : Nat := s.data.length

/-- A JavaScript runtime value as seen by the validators: the result of
`JSON.parse` or a property access (which can be `undefined`). -/
inductive Value where
  | undefined : Value
  | null : Value
  | bool (b : Bool) : Value
  | num (q : ℚ) : Value
  | str (s : String) : Value
  | arr (elems : List Value) : Value
  | obj (fields : List (String × Value)) : Value

/-- Property access `v[key]`: `undefined` on anything but an object with
the key present.  (All accesses in the source are guarded so that `v` is
never `null`/`undefined` at the access site.) -/
def getField : Value → String → Value
  | .obj fields, key =>
    match fields.lookup key with
    | some v => v
    | none => .undefined
  | _, _ => .undefined

/-- Holds when `!v` is false and `typeof v === 'object'`: the guard
`!data || typeof data !== 'object'` in the validators fails exactly when
this is false.  Arrays are `typeof 'object'` and truthy in JS; `null` is
`typeof 'object'` but falsy. -/
def isObjectTruthy : Value → Bool
  | .obj _ => true
  | .arr _ => true
  | _ => false

/-- The two error kinds of the agent: `ValidationError{field, message}`
(a class extending `Error`) and every other thrown `Error` (upstream,
parse, configuration). -/
inductive AgentErr where
  | validation (field : String) (message : String) : AgentErr
  | other (message : String) : AgentErr
deriving DecidableEq, Repr

-- ============================================
-- Schema validators (part_000 lines 143-327)
-- ============================================

/-- The `GoalInput` after narrowing: `priority` is kept as the runtime string
(the TS union type has no runtime representation). -/
structure GoalInput where
  goal : String
  priority : String
  timeAvailable : Option String
deriving DecidableEq, Repr

def validPriorities : List String := ["low", "medium", "high", "critical"]

/-- Source `validateInput` (part_000 lines 143-172). -/
def validateInput (body : Value) : Except AgentErr GoalInput :=
  if !isObjectTruthy body then
    .error (.validation "body" "Invalid request body")
  else
    match getField body "goal" with
    | .str g =>
      if jsLength (jsTrim g) == 0 then
        .error (.validation "goal" "Goal is required and must be a non-empty string")
      else if jsLength g > 1000 then
        .error (.validation "goal" "Goal must be less than 1000 characters")
      else
        match getField body "priority" with
        | .str p =>
          if validPriorities.contains p then
            match getField body "timeAvailable" with
            | .undefined => .ok ⟨jsTrim g, p, none⟩
            | .str t => .ok ⟨jsTrim g, p, some t⟩
            | _ => .error (.validation "timeAvailable" "Must be a string")
          else .error (.validation "priority" "Must be one of: low, medium, high, critical")
        | _ => .error (.validation "priority" "Must be one of: low, medium, high, critical")
    | _ => .error (.validation "goal" "Goal is required and must be a non-empty string")

/-- The `AgentResponse['goalAnalysis']` fragment. -/
structure GoalAnalysis where
  summary : String
  category : String
  complexity : String
deriving DecidableEq, Repr

def validComplexities : List String := ["simple", "moderate", "complex"]

/-- Source `validateGoalAnalysis` (part_000 lines 174-199). -/
def validateGoalAnalysis (data : Value) : Except AgentErr GoalAnalysis :=
  if !isObjectTruthy data then
    .error (.validation "goalAnalysis" "Must be an object")
  else
    match getField data "summary" with
    | .str s =>
      if jsLength s < 10 then
        .error (.validation "goalAnalysis.summary" "Must be a meaningful summary")
      else
        match getField data "category" with
        | .str c =>
          if jsLength c == 0 then
            .error (.validation "goalAnalysis.category" "Category is required")
          else
            match getField data "complexity" with
            | .str x =>
              if validComplexities.contains x then .ok ⟨s, c, x⟩
              else .error (.validation "goalAnalysis.complexity" "Must be one of: simple, moderate, complex")
            | _ => .error (.validation "goalAnalysis.complexity" "Must be one of: simple, moderate, complex")
        | _ => .error (.validation "goalAnalysis.category" "Category is required")
    | _ => .error (.validation "goalAnalysis.summary" "Must be a meaningful summary")

/-- The `ActionStep` entity.  `dependencies` keeps the raw elements: the source casts
`s.dependencies as string[]` without validating the elements. -/
structure ActionStep where
  stepNumber : ℚ
  title : String
  description : String
  estimatedTime : String
  dependencies : List Value

/-- Source `validateActionStep` (part_000 lines 201-235).  The `stepNumber`
check is `typeof s.stepNumber !== 'number' || s.stepNumber < 1`. -/
def validateActionStep (step : Value) (index : Nat) : Except AgentErr ActionStep :=
  if !isObjectTruthy step then
    .error (.validation ("actionSteps[" ++ toString index ++ "]") "Must be an object")
  else
    match getField step "stepNumber" with
    | .num n =>
      if n < 1 then
        .error (.validation ("actionSteps[" ++ toString index ++ "].stepNumber") "Must be a positive number")
      else
        match getField step "title" with
        | .str t =>
          if jsLength t == 0 then
            .error (.validation ("actionSteps[" ++ toString index ++ "].title") "Title is required")
          else
            match getField step "description" with
            | .str d =>
              if jsLength d == 0 then
                .error (.validation ("actionSteps[" ++ toString index ++ "].description") "Description is required")
              else
                match getField step "estimatedTime" with
                | .str e =>
                  match getField step "dependencies" with
                  | .arr deps => .ok ⟨n, t, d, e, deps⟩
                  | _ => .error (.validation ("actionSteps[" ++ toString index ++ "].dependencies") "Dependencies must be an array")
                | _ => .error (.validation ("actionSteps[" ++ toString index ++ "].estimatedTime") "Estimated time is required")
            | _ => .error (.validation ("actionSteps[" ++ toString index ++ "].description") "Description is required")
        | _ => .error (.validation ("actionSteps[" ++ toString index ++ "].title") "Title is required")
    | _ => .error (.validation ("actionSteps[" ++ toString index ++ "].stepNumber") "Must be a positive number")

/-- The `Risk` entity. -/
structure Risk where
  id : String
  title : String
  severity : String
  mitigation : String
deriving DecidableEq, Repr

def validSeverities : List String := ["low", "medium", "high"]

/-- Source `validateRisk` (part_000 lines 237-267). -/
def validateRisk (risk : Value) (index : Nat) : Except AgentErr Risk :=
  if !isObjectTruthy risk then
    .error (.validation ("risks[" ++ toString index ++ "]") "Must be an object")
  else
    match getField risk "id" with
    | .str i =>
      match getField risk "title" with
      | .str t =>
        if jsLength t == 0 then
          .error (.validation ("risks[" ++ toString index ++ "].title") "Title is required")
        else
          match getField risk "severity" with
          | .str sv =>
            if validSeverities.contains sv then
              match getField risk "mitigation" with
              | .str m =>
                if jsLength m == 0 then
                  .error (.validation ("risks[" ++ toString index ++ "].mitigation") "Mitigation strategy is required")
                else .ok ⟨i, t, sv, m⟩
              | _ => .error (.validation ("risks[" ++ toString index ++ "].mitigation") "Mitigation strategy is required")
            else .error (.validation ("risks[" ++ toString index ++ "].severity") "Must be one of: low, medium, high")
          | _ => .error (.validation ("risks[" ++ toString index ++ "].severity") "Must be one of: low, medium, high")
      | _ => .error (.validation ("risks[" ++ toString index ++ "].title") "Title is required")
    | _ => .error (.validation ("risks[" ++ toString index ++ "].id") "ID is required")

/-- The `AgentResponse['nextImmediateAction']` fragment. -/
structure NextAction where
  action : String
  reasoning : String
  timeframe : String
deriving DecidableEq, Repr

/-- Source `validateNextAction` (part_000 lines 269-293). -/
def validateNextAction (data : Value) : Except AgentErr NextAction :=
  if !isObjectTruthy data then
    .error (.validation "nextImmediateAction" "Must be an object")
  else
    match getField data "action" with
    | .str a =>
      if jsLength a == 0 then
        .error (.validation "nextImmediateAction.action" "Action is required")
      else
        match getField data "reasoning" with
        | .str r =>
          if jsLength r == 0 then
            .error (.validation "nextImmediateAction.reasoning" "Reasoning is required")
          else
            match getField data "timeframe" with
            | .str t =>
              if jsLength t == 0 then
                .error (.validation "nextImmediateAction.timeframe" "Timeframe is required")
              else .ok ⟨a, r, t⟩
            | _ => .error (.validation "nextImmediateAction.timeframe" "Timeframe is required")
        | _ => .error (.validation "nextImmediateAction.reasoning" "Reasoning is required")
    | _ => .error (.validation "nextImmediateAction.action" "Action is required")

/-- Indexed validation of a JS array's elements: `xs.map((x, i) => f(x, i))`
where `f` throws, so the first failure aborts the whole map. -/
def validateList (f : Value → Nat → Except AgentErr α) : List Value → Nat → Except AgentErr (List α)
  | [], _ => .ok []
  | x :: xs, i => do
    let a ← f x i
    let rest ← validateList f xs (i + 1)
    pure (a :: rest)

/-- The assembled `AgentResponse`. -/
structure AgentResponse where
  goalAnalysis : GoalAnalysis
  actionSteps : List ActionStep
  totalEstimatedTime : String
  risks : List Risk
  nextImmediateAction : NextAction

/-- Source `validateFullResponse` (part_000 lines 295-327). -/
def validateFullResponse (data : Value) : Except AgentErr AgentResponse :=
  if !isObjectTruthy data then
    .error (.validation "response" "Invalid response structure")
  else do
    let ga ← validateGoalAnalysis (getField data "goalAnalysis")
    match getField data "actionSteps" with
    | .arr steps =>
      if steps.isEmpty then
        .error (.validation "actionSteps" "Must be a non-empty array")
      else do
        let actionSteps ← validateList validateActionStep steps 0
        match getField data "totalEstimatedTime" with
        | .str tot =>
          match getField data "risks" with
          | .arr rs => do
            let risks ← validateList validateRisk rs 0
            let next ← validateNextAction (getField data "nextImmediateAction")
            pure ⟨ga, actionSteps, tot, risks, next⟩
          | _ => .error (.validation "risks" "Must be an array")
        | _ => .error (.validation "totalEstimatedTime" "Total estimated time is required")
    | _ => .error (.validation "actionSteps" "Must be a non-empty array")

-- ============================================
-- Response parser (part_000 lines 690-710)
-- ============================================

/-- The fence-stripping prefix of `parseJSONResponse`: trim, strip an
opening marker with (`slice(7)`) or without (`slice(3)`) the `json` tag,
strip a closing marker (`slice(0, -3)`), trim again. -/
def stripFences (content : String) : String :=
  let c := jsTrim content
  let c := if jsStartsWith c "```json" then jsDrop c 7
           else if jsStartsWith c "```" then jsDrop c 3
           else c
  let c := if jsEndsWith c "```" then jsDropRight c 3 else c
  jsTrim c

/-- Source `parseJSONResponse` (part_000 lines 690-710), parametrised by the
platform deserializer `JSON.parse` (`none` models a thrown `SyntaxError`). -/
def parseJSONResponse (jsonParse : String → Option Value) (content : String) :
    Except AgentErr Value :=
  match jsonParse (stripFences content) with
  | some v => .ok v
  | none => .error (.other "Failed to parse LLM response as JSON")

-- ============================================
-- Retryable gateway client
-- (supabase/functions/analyze-goal/index.ts lines 106-157)
-- ============================================

/-- One observed outcome of `fetch`: an HTTP response with a status code
and a body text, or a rejected promise (network failure). -/
inductive FetchOutcome where
  | status (code : Nat) (body : String) : FetchOutcome
  | networkError (message : String) : FetchOutcome

/-- The loop body of `fetchWithRetry`, recursing on the number of
remaining attempts (`attempt = maxRetries - remaining`); it threads the
mutable `lastError` and accumulates the awaited backoff delays and the
number of requests issued.  Note the 4xx branch `throw`s inside the
`try`, so it lands in the generic `catch` below it. -/
def fetchGo (responses : Nat → FetchOutcome) (maxRetries baseDelay : Nat) :
    Nat → Option String → List Nat → Nat → Except String Nat × Nat × List Nat
  | 0, lastError, delays, requests =>
    (.error (lastError.getD "Max retries exceeded"), requests, delays)
  | remaining + 1, lastError, delays, requests =>
    let attempt := maxRetries - (remaining + 1)
    match responses attempt with
    | .status code body =>
      if 200 ≤ code ∧ code < 300 then
        -- response.ok
        (.ok code, requests + 1, delays)
      else if code == 429 then
        -- rate limited: longer backoff, then continue
        fetchGo responses maxRetries baseDelay remaining lastError
          (delays ++ [baseDelay * 2 ^ attempt * 2]) (requests + 1)
      else if 400 ≤ code ∧ code < 500 then
        -- `throw new Error(...)` — caught by the enclosing catch block,
        -- which records lastError and backs off unless on the last attempt
        let le := some ("API error " ++ toString code ++ ": " ++ body)
        if attempt < maxRetries - 1 then
          fetchGo responses maxRetries baseDelay remaining le
            (delays ++ [baseDelay * 2 ^ attempt]) (requests + 1)
        else
          fetchGo responses maxRetries baseDelay remaining le delays (requests + 1)
      else if 500 ≤ code then
        -- server error: backoff, then continue (lastError not set)
        fetchGo responses maxRetries baseDelay remaining lastError
          (delays ++ [baseDelay * 2 ^ attempt]) (requests + 1)
      else
        -- 3xx: falls out of the try block with no delay
        fetchGo responses maxRetries baseDelay remaining lastError delays (requests + 1)
    | .networkError msg =>
      if attempt < maxRetries - 1 then
        fetchGo responses maxRetries baseDelay remaining (some msg)
          (delays ++ [baseDelay * 2 ^ attempt]) (requests + 1)
      else
        fetchGo responses maxRetries baseDelay remaining (some msg) delays (requests + 1)

/-- Source `fetchWithRetry` (index.ts lines 106-157) over a scripted sequence of
per-attempt outcomes; returns the result (`ok` with the status of the
returned response, or the propagated error message), the number of
requests issued, and the list of awaited backoff delays in order. -/
def fetchWithRetry (responses : Nat → FetchOutcome) (maxRetries : Nat := 3)
    (baseDelay : Nat := 1000) : Except String Nat × Nat × List Nat :=
  fetchGo responses maxRetries baseDelay maxRetries none [] 0

-- ============================================
-- Agent state and orchestrator retry (part_000 lines 110-130, 665-683)
-- ============================================

/-- Source `AgentState` (part_000 lines 110-118); the tool-call/result logs and
the in-progress response are carried explicitly by `PlanningAgent.run`
below rather than stored here. -/
structure AgentState where
  input : GoalInput
  currentStep : String
  retryCount : Nat
  maxRetries : Nat
deriving DecidableEq, Repr

/-- Source `createAgentState` (part_000 lines 120-130). -/
def createAgentState (input : GoalInput) : AgentState :=
  { input := input, currentStep := "initialize", retryCount := 0, maxRetries := 3 }

/-- The loop body of `PlanningAgent.executeWithRetry`, recursing on the
remaining attempts (`attempt = maxRetries - remaining`); `fn` is the
whole executor invocation, indexed by the attempt at which it runs. -/
def executeRetryGo (fn : Nat → Except AgentErr α) (maxRetries : Nat) :
    Nat → Option AgentErr → List Nat → Nat → Except AgentErr α × Nat × List Nat
  | 0, lastError, delays, calls =>
    (.error (lastError.getD (.other "Max retries exceeded")), calls, delays)
  | remaining + 1, lastError, delays, calls =>
    let attempt := maxRetries - (remaining + 1)
    match fn attempt with
    | .ok v => (.ok v, calls + 1, delays)
    | .error e =>
      if attempt < maxRetries - 1 then
        executeRetryGo fn maxRetries remaining (some e)
          (delays ++ [1000 * 2 ^ attempt]) (calls + 1)
      else
        executeRetryGo fn maxRetries remaining (some e) delays (calls + 1)

/-- Source `PlanningAgent.executeWithRetry` (part_000 lines 665-683): returns
the outcome, the number of times the executor was invoked, and the
backoff delays awaited between consecutive attempts. -/
def executeWithRetry (fn : Nat → Except AgentErr α) (maxRetries : Nat) :
    Except AgentErr α × Nat × List Nat :=
  executeRetryGo fn maxRetries maxRetries none [] 0

-- ============================================
-- Tool executors (part_000 lines 419-575)
-- ============================================

/-- A stubbed `callLLM`: the content string the gateway returns (or the
error it throws) on the given invocation; invocations are counted by the
orchestrator's retry attempt, since each retry issues a fresh call. -/
def Gateway : Type := Nat → Except AgentErr String

/-- Source `executeAnalyzeComplexity` (part_000 lines 419-448) after the
prompts: gateway call, then parse, then fragment validation. -/
def executeAnalyzeComplexity (gateway : Gateway) (jsonParse : String → Option Value)
    (attempt : Nat) : Except AgentErr GoalAnalysis := do
  let content ← gateway attempt
  let parsed ← parseJSONResponse jsonParse content
  validateGoalAnalysis parsed

/-- The post-parse logic of `executeGenerateSteps` (part_000 lines
485-497): require a `steps` array, validate each step, and default
`totalTime` to `"Varies"` when it is missing or not a string. -/
def generateStepsPost (parsed : Value) : Except AgentErr (List ActionStep × String) :=
  match getField parsed "steps" with
  | .arr steps => do
    let validatedSteps ← validateList validateActionStep steps 0
    let totalTime := match getField parsed "totalTime" with
      | .str t => t
      | _ => "Varies"
    pure (validatedSteps, totalTime)
  | _ => .error (.validation "steps" "Invalid steps structure")

/-- Source `executeGenerateSteps` (part_000 lines 450-497). -/
def executeGenerateSteps (gateway : Gateway) (jsonParse : String → Option Value)
    (attempt : Nat) : Except AgentErr (List ActionStep × String) := do
  let content ← gateway attempt
  let parsed ← parseJSONResponse jsonParse content
  generateStepsPost parsed

/-- The post-parse logic of `executeIdentifyRisks` (part_000 lines
535-541). -/
def identifyRisksPost (parsed : Value) : Except AgentErr (List Risk) :=
  match getField parsed "risks" with
  | .arr rs => validateList validateRisk rs 0
  | _ => .error (.validation "risks" "Invalid risks structure")

/-- Source `executeIdentifyRisks` (part_000 lines 499-542). -/
def executeIdentifyRisks (gateway : Gateway) (jsonParse : String → Option Value)
    (attempt : Nat) : Except AgentErr (List Risk) := do
  let content ← gateway attempt
  let parsed ← parseJSONResponse jsonParse content
  identifyRisksPost parsed

/-- Source `executeDetermineNextAction` (part_000 lines 544-575). -/
def executeDetermineNextAction (gateway : Gateway) (jsonParse : String → Option Value)
    (attempt : Nat) : Except AgentErr NextAction := do
  let content ← gateway attempt
  let parsed ← parseJSONResponse jsonParse content
  validateNextAction parsed

/-- An executor invocation split into its gateway call and everything
after it (parse + validation): each retry attempt issues a fresh gateway
call and re-runs the whole post-processing. -/
def composedExecutor (gateway : Gateway) (post : String → Except AgentErr α)
    (attempt : Nat) : Except AgentErr α := do
  let content ← gateway attempt
  post content

-- ============================================
-- Orchestrator (part_000 lines 581-684) and HTTP handler (716-775)
-- ============================================

/-- The stubbed per-step executors a `PlanningAgent.run` is driven by
(each one is attempt-indexed, as `executeWithRetry` re-invokes it). -/
structure Executors where
  analyze : Nat → Except AgentErr GoalAnalysis
  generate : Nat → Except AgentErr (List ActionStep × String)
  risks : Nat → Except AgentErr (List Risk)
  nextAction : Nat → Except AgentErr NextAction

/-- Re-encoding of the accumulated `state.partialResponse` object that
`PlanningAgent.run` passes to `validateFullResponse`: the validated
fragments laid out as the runtime object they are stored in. -/
def encodeGoalAnalysis (ga : GoalAnalysis) : Value :=
  .obj [("summary", .str ga.summary), ("category", .str ga.category),
        ("complexity", .str ga.complexity)]

def encodeActionStep (s : ActionStep) : Value :=
  .obj [("stepNumber", .num s.stepNumber), ("title", .str s.title),
        ("description", .str s.description), ("estimatedTime", .str s.estimatedTime),
        ("dependencies", .arr s.dependencies)]

def encodeRisk (r : Risk) : Value :=
  .obj [("id", .str r.id), ("title", .str r.title),
        ("severity", .str r.severity), ("mitigation", .str r.mitigation)]

def encodeNextAction (na : NextAction) : Value :=
  .obj [("action", .str na.action), ("reasoning", .str na.reasoning),
        ("timeframe", .str na.timeframe)]

def encodeAssembled (ga : GoalAnalysis) (steps : List ActionStep) (totalTime : String)
    (rs : List Risk) (na : NextAction) : Value :=
  .obj [("goalAnalysis", encodeGoalAnalysis ga),
        ("actionSteps", .arr (steps.map encodeActionStep)),
        ("totalEstimatedTime", .str totalTime),
        ("risks", .arr (rs.map encodeRisk)),
        ("nextImmediateAction", encodeNextAction na)]

/-- Source `PlanningAgent.run` (part_000 lines 590-663): the four tool steps in
fixed order, each wrapped in `executeWithRetry`; on success of all four,
the assembled response passes once more through `validateFullResponse`.
Also returns the trace of `currentStep` values entered, in order. -/
def PlanningAgent.run (ex : Executors) (maxRetries : Nat) :
    Except AgentErr AgentResponse × List String :=
  match executeWithRetry ex.analyze maxRetries with
  | (.error e, _, _) => (.error e, ["analyze_complexity"])
  | (.ok ga, _, _) =>
    match executeWithRetry ex.generate maxRetries with
    | (.error e, _, _) => (.error e, ["analyze_complexity", "generate_steps"])
    | (.ok (steps, totalTime), _, _) =>
      match executeWithRetry ex.risks maxRetries with
      | (.error e, _, _) =>
        (.error e, ["analyze_complexity", "generate_steps", "identify_risks"])
      | (.ok rs, _, _) =>
        match executeWithRetry ex.nextAction maxRetries with
        | (.error e, _, _) =>
          (.error e, ["analyze_complexity", "generate_steps", "identify_risks",
                      "determine_next_action"])
        | (.ok na, _, _) =>
          (validateFullResponse (encodeAssembled ga steps totalTime rs na),
           ["analyze_complexity", "generate_steps", "identify_risks",
            "determine_next_action", "validate_output"])

/-- The names of all pipeline steps in the order `run` enters them. -/
def allStepNames : List String :=
  ["analyze_complexity", "generate_steps", "identify_risks",
   "determine_next_action", "validate_output"]

/-- The body of the `serve` handler's `try` block (part_000 lines
725-755): validate input, require the API key, run the agent.  The
executors may depend on the validated input (prompts are built from it). -/
def serveCore (body : Value) (hasApiKey : Bool) (ex : GoalInput → Executors) :
    Except AgentErr AgentResponse := do
  let input ← validateInput body
  if !hasApiKey then
    .error (.other "Lovable AI key is not configured")
  else
    (PlanningAgent.run (ex input) (createAgentState input).maxRetries).1

/-- An HTTP response from the handler: 200 with the validated
`AgentResponse`, or an error body `{code, message, field?}`. -/
inductive ServeResult where
  | success (resp : AgentResponse) : ServeResult
  | failure (status : Nat) (code : String) (message : String) (field : Option String) : ServeResult

/-- Source `serve` handler (part_000 lines 716-775): its catch block maps a
`ValidationError` to HTTP 400 `VALIDATION_ERROR` (with the field) and
every other error to HTTP 500 `AGENT_ERROR`. -/
def serveHandler (body : Value) (hasApiKey : Bool) (ex : GoalInput → Executors) :
    ServeResult :=
  match serveCore body hasApiKey ex with
  | .ok r => .success r
  | .error (.validation f m) =>
    .failure 400 "VALIDATION_ERROR" ("Validation error on '" ++ f ++ "': " ++ m) (some f)
  | .error (.other m) => .failure 500 "AGENT_ERROR" m none

-- ============================================
-- Concrete fixtures used by witnesses and counterexamples
-- ============================================

/-- The scripted gateway status sequence `[429, 429, 200]`. -/
def seq429 : Nat → FetchOutcome
  | 0 => .status 429 "rate limited"
  | 1 => .status 429 "rate limited"
  | _ => .status 200 "ok"

/-- A valid goal-analysis fragment. -/
def gaEx : GoalAnalysis := ⟨"A structured goal analysis.", "Learning", "simple"⟩

/-- A valid action step. -/
def stepEx : ActionStep := ⟨1, "Start", "Do the first thing", "2 hours", []⟩

/-- A valid risk. -/
def riskEx : Risk := ⟨"risk_1", "Time pressure", "low", "Plan buffers into the schedule"⟩

/-- A valid next action. -/
def naEx : NextAction := ⟨"Pick up the guitar", "Lowest-friction start", "Today"⟩

/-- Stub executors that succeed on every attempt. -/
def exOk : Executors :=
  ⟨fun _ => .ok gaEx, fun _ => .ok ([stepEx], "2 weeks"),
   fun _ => .ok [riskEx], fun _ => .ok naEx⟩

/-- Stub executors whose `generate_steps` step fails on every attempt
(the gateway returns an upstream error each time). -/
def exGenFail : Executors :=
  ⟨fun _ => .ok gaEx, fun _ => .error (.other "LLM API error 500: boom"),
   fun _ => .ok [riskEx], fun _ => .ok naEx⟩

/-- A well-formed request body. -/
def validBody : Value :=
  .obj [("goal", .str "Learn guitar basics"), ("priority", .str "medium")]

/-- A parsed analysis fragment whose `summary` is too short: it fails the
fragment validator (post-hoc), not the input validator. -/
def badAnalysis : Value :=
  .obj [("summary", .str "short"), ("category", .str "Learning"), ("complexity", .str "simple")]

/-- A gateway stub that answers every attempt with the same content. -/
def gwBadAnalysis : Gateway := fun _ => .ok "analysis-content"

/-- A deserializer stub mapping that content to `badAnalysis`. -/
def jpBadAnalysis : String → Option Value :=
  fun s => if s = "analysis-content" then some badAnalysis else none

/-- Executors built from the real `executeAnalyzeComplexity` over the
stubbed gateway: the first step raises a post-hoc `ValidationError` on
every attempt, so the later executors are never reached. -/
def exBadAnalysis : GoalInput → Executors := fun _ =>
  ⟨executeAnalyzeComplexity gwBadAnalysis jpBadAnalysis,
   fun _ => .error (.other "unreachable"), fun _ => .error (.other "unreachable"),
   fun _ => .error (.other "unreachable")⟩

/-- The non-integral number three halves. -/
def threeHalves : ℚ := Rat.mk' 3 2

/-- An action-step value whose `stepNumber` is `1.5`. -/
def stepHalfValue : Value :=
  .obj [("stepNumber", .num threeHalves), ("title", .str "T"), ("description", .str "D"),
        ("estimatedTime", .str "1h"), ("dependencies", .arr [])]

/-- A parsed step-generation fragment with a valid non-empty `steps`
array and no `totalTime` field. -/
def stepsNoTotalTime : Value := .obj [("steps", .arr [encodeActionStep stepEx])]

-- ============================================
-- Theorems
-- ============================================

/-- Helper: a run of a non-whitespace character is untouched by `jsTrim`. -/
theorem jsTrim_replicate (n : Nat) (c : Char) (h : jsWhitespace c = false) :
    jsTrim ⟨List.replicate n c⟩ = ⟨List.replicate n c⟩ := by
  have hdrop : List.dropWhile jsWhitespace (List.replicate n c) = List.replicate n c := by
    cases n with
    | zero => rfl
    | succ m =>
      rw [List.replicate_succ, List.dropWhile_cons_of_neg (by simp [h])]
  unfold jsTrim
  simp only [hdrop, List.reverse_replicate]

/-- Helper: `jsTrim` written with `List.rdropWhile`. -/
theorem jsTrim_eq_rdropWhile (s : String) :
    jsTrim s = String.mk (List.rdropWhile jsWhitespace (List.dropWhile jsWhitespace s.data)) := by
  simp [jsTrim, List.rdropWhile]

/-- Helper: trimming is idempotent. -/
theorem jsTrim_idem (s : String) : jsTrim (jsTrim s) = jsTrim s := by
  have key : ∀ l : List Char,
      List.rdropWhile jsWhitespace (List.dropWhile jsWhitespace
        (List.rdropWhile jsWhitespace (List.dropWhile jsWhitespace l))) =
      List.rdropWhile jsWhitespace (List.dropWhile jsWhitespace l) := by
    intro l
    set m := List.rdropWhile jsWhitespace (List.dropWhile jsWhitespace l) with hm
    have h1 : List.dropWhile jsWhitespace m = m := by
      rw [List.dropWhile_eq_self_iff]
      intro hl
      have hpre : m <+: List.dropWhile jsWhitespace l := List.rdropWhile_prefix _ _
      have h0 : (0 : Nat) < (List.dropWhile jsWhitespace l).length :=
        lt_of_lt_of_le hl hpre.length_le
      have hnot := List.dropWhile_get_zero_not (p := jsWhitespace) l h0
      simpa [List.get_eq_getElem, hpre.getElem hl] using hnot
    rw [h1, List.rdropWhile_idempotent]
  rw [jsTrim_eq_rdropWhile s, jsTrim_eq_rdropWhile]
  exact congrArg String.mk (key s.data)

/-- Helper: a string that does not start with a bare fence marker does
not start with a tagged one either. -/
theorem jsStartsWith_json_of_not_fence (c : String)
    (h : jsStartsWith c "```" = false) : jsStartsWith c "```json" = false := by
  by_contra hx
  have htrue : List.isPrefixOf ("```json".data) c.data = true := by
    simpa [jsStartsWith] using hx
  have hpre : "```json".data <+: c.data := List.isPrefixOf_iff_prefix.mp htrue
  have h3 : "```".data <+: "```json".data := ⟨['j', 's', 'o', 'n'], rfl⟩
  have : List.isPrefixOf ("```".data) c.data = true :=
    List.isPrefixOf_iff_prefix.mpr (h3.trans hpre)
  simp [jsStartsWith, this] at h

/-- Claim C1 (code bug): the claim — and the source comment "Don't retry
client errors (except rate limits)" — say a single 404 fails immediately
with no retry, but the 4xx `throw` sits inside the `try`, so the generic
`catch` treats it like a network failure: with every response a 404,
`fetchWithRetry` issues 3 requests and awaits backoff delays of 1000ms
and 2000ms before propagating the error. -/
theorem fetchWithRetry_retries_single_404 :
    fetchWithRetry (fun _ => .status 404 "not found") 3 1000 =
      (.error "API error 404: not found", 3, [1000, 2000]) := rfl

/-- Claim C8: on `[429, 429, 200]` the client succeeds on the third
request (exactly 2 retries) after increasing rate-limit delays
`1000 * 2 ^ attempt * 2`; on all-500 responses with retry limit 3 it
fails after exactly 3 attempts, never succeeding, with delays
`1000 * 2 ^ attempt` between attempts (the code also awaits one final
delay after the last 5xx before giving up). -/
theorem fetchWithRetry_transient_sequences :
    fetchWithRetry seq429 3 1000 = (.ok 200, 3, [2000, 4000]) ∧
    fetchWithRetry (fun _ => .status 500 "server error") 3 1000 =
      (.error "Max retries exceeded", 3, [1000, 2000, 4000]) := ⟨rfl, rfl⟩

/-- Claim C7: the response parser trims, strips an opening fence marker
(tagged or bare) and a trailing closing fence, trims again, and
deserializes: the documented fenced example and its bare form parse to
the identical value under any deserializer; on input bearing no fence
markers it is a no-op wrapper around `JSON.parse` (applied to the
trimmed text); and whenever the stripped remainder is not valid JSON it
fails with a parse error instead of returning a value. -/
theorem parseJSONResponse_fence_stripping :
    (stripFences "```json\n\x7b\"a\":1\x7d\n```" = "\x7b\"a\":1\x7d" ∧
     stripFences "\x7b\"a\":1\x7d" = "\x7b\"a\":1\x7d" ∧
     ∀ jsonParse, parseJSONResponse jsonParse "```json\n\x7b\"a\":1\x7d\n```" =
       parseJSONResponse jsonParse "\x7b\"a\":1\x7d") ∧
    (∀ s, jsStartsWith (jsTrim s) "```" = false → jsEndsWith (jsTrim s) "```" = false →
      stripFences s = jsTrim s) ∧
    (∀ jsonParse s, jsStartsWith (jsTrim s) "```" = false →
      jsEndsWith (jsTrim s) "```" = false →
      parseJSONResponse jsonParse s =
        match jsonParse (jsTrim s) with
        | some v => .ok v
        | none => .error (.other "Failed to parse LLM response as JSON")) ∧
    (∀ jsonParse s, jsonParse (stripFences s) = none →
      parseJSONResponse jsonParse s =
        .error (.other "Failed to parse LLM response as JSON")) := by
  have hbare : ∀ s, jsStartsWith (jsTrim s) "```" = false →
      jsEndsWith (jsTrim s) "```" = false → stripFences s = jsTrim s := by
    intro s h1 h2
    have hjson := jsStartsWith_json_of_not_fence _ h1
    simp only [stripFences, hjson, h1, h2, Bool.false_eq_true, if_false]
    exact jsTrim_idem s
  refine ⟨⟨rfl, rfl, fun jp => rfl⟩, hbare, ?_, ?_⟩
  · intro jp s h1 h2
    rw [parseJSONResponse, hbare s h1 h2]
  · intro jp s h
    simp [parseJSONResponse, h]

/-- Claim C7 witness: the bare documented input is parsed as-is, and an
unparseable input (`not json`) yields the parse error. -/
theorem parseJSONResponse_fence_stripping_witness :
    stripFences "not json" = "not json" ∧
    parseJSONResponse (fun _ => none) "not json" =
      .error (.other "Failed to parse LLM response as JSON") := by
  constructor
  · exact (parseJSONResponse_fence_stripping.2.1 "not json" (by decide) (by decide)).trans
      (by decide)
  · exact parseJSONResponse_fence_stripping.2.2.2 (fun _ => none) "not json" rfl

/-- Claim C9 counterexample: `validateActionStep` accepts a step whose
`stepNumber` is `1.5` — the check is `typeof !== 'number' || < 1`, with
no integrality test — so "validation succeeds only if stepNumber is a
positive integer" is false on the code. -/
theorem validateActionStep_accepts_noninteger :
    validateActionStep stepHalfValue 0 = .ok ⟨threeHalves, "T", "D", "1h", []⟩ ∧
    threeHalves.den ≠ 1 ∧ 1 ≤ threeHalves := ⟨rfl, by decide, by decide⟩

/-- Claim C9 (amended): `validateActionStep` succeeds only if
`stepNumber` is a number at least 1 (integral or not); a `stepNumber`
that is not a number, or is a number below 1, is rejected with a
`ValidationError` naming `actionSteps[i].stepNumber`. -/
theorem validateActionStep_stepNumber_policy :
    (∀ step index s, validateActionStep step index = .ok s →
      getField step "stepNumber" = .num s.stepNumber ∧ 1 ≤ s.stepNumber) ∧
    (∀ step index q, isObjectTruthy step = true → getField step "stepNumber" = .num q →
      q < 1 →
      validateActionStep step index =
        .error (.validation ("actionSteps[" ++ toString index ++ "].stepNumber")
          "Must be a positive number")) ∧
    (∀ step index, isObjectTruthy step = true →
      (∀ q, getField step "stepNumber" ≠ .num q) →
      validateActionStep step index =
        .error (.validation ("actionSteps[" ++ toString index ++ "].stepNumber")
          "Must be a positive number")) := by
  refine ⟨?_, ?_, ?_⟩
  · intro step index s h
    by_cases hobj : isObjectTruthy step
    · cases hf : getField step "stepNumber" with
      | num n =>
        simp only [validateActionStep, hobj, hf, Bool.not_true, Bool.false_eq_true,
          if_false] at h
        by_cases hlt : n < 1
        · simp [hlt] at h
        · rw [if_neg hlt] at h
          repeat' split at h
          all_goals simp_all
          subst h
          exact ⟨rfl, hlt⟩
      | undefined => simp [validateActionStep, hobj, hf] at h
      | null => simp [validateActionStep, hobj, hf] at h
      | bool b => simp [validateActionStep, hobj, hf] at h
      | str s' => simp [validateActionStep, hobj, hf] at h
      | arr xs => simp [validateActionStep, hobj, hf] at h
      | obj fs => simp [validateActionStep, hobj, hf] at h
    · simp [validateActionStep, hobj] at h
  · intro step index q hobj hf hlt
    simp [validateActionStep, hobj, hf, hlt]
  · intro step index hobj hnum
    cases hf : getField step "stepNumber" <;>
      simp_all [validateActionStep, hobj]

/-- Claim C9 witness (for the amended claim): a below-1 `stepNumber` and
a string `stepNumber` are both rejected naming the field, and a
successful validation yields a `stepNumber` at least 1. -/
theorem validateActionStep_stepNumber_policy_witness :
    validateActionStep (.obj [("stepNumber", .num 0)]) 2 =
      .error (.validation "actionSteps[2].stepNumber" "Must be a positive number") ∧
    validateActionStep (.obj [("stepNumber", .str "one")]) 0 =
      .error (.validation "actionSteps[0].stepNumber" "Must be a positive number") ∧
    (1 : ℚ) ≤ stepEx.stepNumber := by
  refine ⟨?_, ?_, ?_⟩
  · exact validateActionStep_stepNumber_policy.2.1 (.obj [("stepNumber", .num 0)]) 2 0
      rfl rfl (by decide)
  · exact validateActionStep_stepNumber_policy.2.2 (.obj [("stepNumber", .str "one")]) 0
      rfl (fun q => by simp [getField])
  · exact (validateActionStep_stepNumber_policy.1 (encodeActionStep stepEx) 0 stepEx rfl).2

/-- Claim C10: when the parsed step-generation fragment has a valid
non-empty `steps` array but `totalTime` is missing or not a string, the
executor does not fail: it substitutes the literal `"Varies"`, and the
final response validator raises no error for a `totalEstimatedTime` of
`"Varies"`. -/
theorem generateSteps_totalTime_defaults_to_varies :
    (∀ parsed steps validatedSteps,
      getField parsed "steps" = .arr steps → steps ≠ [] →
      validateList validateActionStep steps 0 = .ok validatedSteps →
      (∀ t, getField parsed "totalTime" ≠ .str t) →
      generateStepsPost parsed = .ok (validatedSteps, "Varies")) ∧
    (∀ gateway jsonParse attempt, executeGenerateSteps gateway jsonParse attempt = do
      let content ← gateway attempt
      let parsed ← parseJSONResponse jsonParse content
      generateStepsPost parsed) ∧
    validateFullResponse (encodeAssembled gaEx [stepEx] "Varies" [] naEx) =
      .ok ⟨gaEx, [stepEx], "Varies", [], naEx⟩ := by
  refine ⟨?_, fun gw jp a => rfl, rfl⟩
  intro parsed steps vsteps hsteps hne hval hts
  cases ht : getField parsed "totalTime" with
  | str t => exact absurd ht (hts t)
  | undefined => simp [generateStepsPost, hsteps, hval, ht]
  | null => simp [generateStepsPost, hsteps, hval, ht]
  | bool b => simp [generateStepsPost, hsteps, hval, ht]
  | num q => simp [generateStepsPost, hsteps, hval, ht]
  | arr xs => simp [generateStepsPost, hsteps, hval, ht]
  | obj fs => simp [generateStepsPost, hsteps, hval, ht]

/-- Claim C10 witness: a concrete fragment with one valid step and no
`totalTime` field yields the step list with total time `"Varies"`. -/
theorem generateSteps_totalTime_defaults_witness :
    generateStepsPost stepsNoTotalTime = .ok ([stepEx], "Varies") :=
  generateSteps_totalTime_defaults_to_varies.1 stepsNoTotalTime [encodeActionStep stepEx]
    [stepEx] rfl (by simp) rfl
    (fun t h => by simp [stepsNoTotalTime, getField, List.lookup] at h)

/-- Claim C5: the orchestrator retry wraps the whole executor invocation
(gateway call, parse and validation, as `executeAnalyzeComplexity` is
exactly the composition of the gateway with its post-processing): a
post-processing failure after a successful gateway call triggers a fresh
gateway call on the next attempt; retries are bounded at 3 attempts by
default (`createAgentState`), with a backoff of `1000 * 2 ^ attempt`
between consecutive attempts, and after exhaustion the last attempt's
error is propagated. -/
theorem executeWithRetry_policy :
    (∀ input : GoalInput, (createAgentState input).maxRetries = 3) ∧
    (∀ (α : Type) (fn : Nat → Except AgentErr α) (e₀ e₁ e₂ : AgentErr),
      fn 0 = .error e₀ → fn 1 = .error e₁ → fn 2 = .error e₂ →
      executeWithRetry fn 3 = (.error e₂, 3, [1000, 2000])) ∧
    (∀ (α : Type) (gateway : Gateway) (post : String → Except AgentErr α)
        (c₀ : String) (e₀ : AgentErr) (c₁ : String) (v : α),
      gateway 0 = .ok c₀ → post c₀ = .error e₀ → gateway 1 = .ok c₁ → post c₁ = .ok v →
      executeWithRetry (composedExecutor gateway post) 3 = (.ok v, 2, [1000])) ∧
    (∀ gateway jsonParse, executeAnalyzeComplexity gateway jsonParse =
      composedExecutor gateway (fun content => do
        let parsed ← parseJSONResponse jsonParse content
        validateGoalAnalysis parsed)) := by
  refine ⟨fun _ => rfl, ?_, ?_, fun gw jp => rfl⟩
  · intro α fn e₀ e₁ e₂ h0 h1 h2
    simp [executeWithRetry, executeRetryGo, h0, h1, h2]
  · intro α gw post c₀ e₀ c₁ v hg0 hp0 hg1 hp1
    simp [executeWithRetry, executeRetryGo, composedExecutor, bind, Except.bind,
      hg0, hp0, hg1, hp1]

/-- Claim C5 witness: a concrete executor failing on attempt 0 (parse
failure after a successful gateway call) and succeeding on attempt 1,
and a concrete executor failing on all three attempts. -/
theorem executeWithRetry_policy_witness :
    (createAgentState ⟨"Learn guitar basics", "medium", none⟩).maxRetries = 3 ∧
    executeWithRetry (fun a => (.error (.other (toString a)) : Except AgentErr Nat)) 3 =
      (.error (.other "2"), 3, [1000, 2000]) ∧
    executeWithRetry
      (composedExecutor (fun a => .ok (if a = 0 then "bad" else "good"))
        (fun c => if c = "good" then .ok 42 else .error (.other "parse failure"))) 3 =
      (.ok 42, 2, [1000]) := by
  refine ⟨executeWithRetry_policy.1 _, ?_, ?_⟩
  · exact executeWithRetry_policy.2.1 Nat _ (.other "0") (.other "1") (.other "2")
      rfl rfl rfl
  · exact executeWithRetry_policy.2.2.1 Nat _ _ "bad" (.other "parse failure") "good" 42
      rfl rfl rfl rfl

/-- Claim C4: the orchestrator enters the four tool steps in the fixed
order `analyze_complexity, generate_steps, identify_risks,
determine_next_action` (followed by `validate_output`) with no branching
or skipping, and is fail-fast: whenever a step's bounded retry is
exhausted (its `executeWithRetry` returns the error), the run fails with
that step's error and no later step is ever entered or its executor
invoked. -/
theorem orchestrator_order_and_fail_fast :
    (∀ ex maxRetries resp, (PlanningAgent.run ex maxRetries).1 = .ok resp →
      (PlanningAgent.run ex maxRetries).2 = allStepNames) ∧
    (∀ ex maxRetries e, (executeWithRetry ex.analyze maxRetries).1 = .error e →
      PlanningAgent.run ex maxRetries = (.error e, ["analyze_complexity"]) ∧
      "generate_steps" ∉ (PlanningAgent.run ex maxRetries).2 ∧
      "identify_risks" ∉ (PlanningAgent.run ex maxRetries).2 ∧
      "determine_next_action" ∉ (PlanningAgent.run ex maxRetries).2) ∧
    (∀ ex maxRetries ga e, (executeWithRetry ex.analyze maxRetries).1 = .ok ga →
      (executeWithRetry ex.generate maxRetries).1 = .error e →
      PlanningAgent.run ex maxRetries =
        (.error e, ["analyze_complexity", "generate_steps"]) ∧
      "identify_risks" ∉ (PlanningAgent.run ex maxRetries).2 ∧
      "determine_next_action" ∉ (PlanningAgent.run ex maxRetries).2) ∧
    (∀ ex maxRetries ga st e, (executeWithRetry ex.analyze maxRetries).1 = .ok ga →
      (executeWithRetry ex.generate maxRetries).1 = .ok st →
      (executeWithRetry ex.risks maxRetries).1 = .error e →
      PlanningAgent.run ex maxRetries =
        (.error e, ["analyze_complexity", "generate_steps", "identify_risks"]) ∧
      "determine_next_action" ∉ (PlanningAgent.run ex maxRetries).2) ∧
    (∀ ex maxRetries ga st rs e, (executeWithRetry ex.analyze maxRetries).1 = .ok ga →
      (executeWithRetry ex.generate maxRetries).1 = .ok st →
      (executeWithRetry ex.risks maxRetries).1 = .ok rs →
      (executeWithRetry ex.nextAction maxRetries).1 = .error e →
      PlanningAgent.run ex maxRetries =
        (.error e, ["analyze_complexity", "generate_steps", "identify_risks",
          "determine_next_action"])) := by
  refine ⟨?_, ?_, ?_, ?_, ?_⟩
  · intro ex maxR resp h
    unfold PlanningAgent.run at h ⊢
    repeat' split at h
    all_goals simp_all [allStepNames]
  · intro ex maxR e hA
    rcases h1 : executeWithRetry ex.analyze maxR with ⟨rA, nA, dA⟩
    rw [h1] at hA
    simp only at hA
    subst hA
    have hrun : PlanningAgent.run ex maxR = (.error e, ["analyze_complexity"]) := by
      simp [PlanningAgent.run, h1]
    exact ⟨hrun, by rw [hrun]; simp, by rw [hrun]; simp, by rw [hrun]; simp⟩
  · intro ex maxR ga e hA hG
    rcases h1 : executeWithRetry ex.analyze maxR with ⟨rA, nA, dA⟩
    rcases h2 : executeWithRetry ex.generate maxR with ⟨rG, nG, dG⟩
    rw [h1] at hA
    rw [h2] at hG
    simp only at hA hG
    subst hA
    subst hG
    have hrun : PlanningAgent.run ex maxR =
        (.error e, ["analyze_complexity", "generate_steps"]) := by
      simp [PlanningAgent.run, h1, h2]
    exact ⟨hrun, by rw [hrun]; simp, by rw [hrun]; simp⟩
  · intro ex maxR ga st e hA hG hR
    rcases h1 : executeWithRetry ex.analyze maxR with ⟨rA, nA, dA⟩
    rcases h2 : executeWithRetry ex.generate maxR with ⟨rG, nG, dG⟩
    rcases h3 : executeWithRetry ex.risks maxR with ⟨rR, nR, dR⟩
    rw [h1] at hA
    rw [h2] at hG
    rw [h3] at hR
    simp only at hA hG hR
    subst hA
    subst hG
    subst hR
    have hrun : PlanningAgent.run ex maxR =
        (.error e, ["analyze_complexity", "generate_steps", "identify_risks"]) := by
      simp [PlanningAgent.run, h1, h2, h3]
    exact ⟨hrun, by rw [hrun]; simp⟩
  · intro ex maxR ga st rs e hA hG hR hN
    rcases h1 : executeWithRetry ex.analyze maxR with ⟨rA, nA, dA⟩
    rcases h2 : executeWithRetry ex.generate maxR with ⟨rG, nG, dG⟩
    rcases h3 : executeWithRetry ex.risks maxR with ⟨rR, nR, dR⟩
    rcases h4 : executeWithRetry ex.nextAction maxR with ⟨rN, nN, dN⟩
    rw [h1] at hA
    rw [h2] at hG
    rw [h3] at hR
    rw [h4] at hN
    simp only at hA hG hR hN
    subst hA
    subst hG
    subst hR
    subst hN
    simp [PlanningAgent.run, h1, h2, h3, h4]

/-- Claim C4 witness: with stub executors whose `generate_steps` step
fails on every attempt, the run fails with that step's error, entering
only the first two steps; with all-success stubs the five states are
entered in order. -/
theorem orchestrator_order_and_fail_fast_witness :
    PlanningAgent.run exGenFail 3 =
      (.error (.other "LLM API error 500: boom"), ["analyze_complexity", "generate_steps"]) ∧
    "identify_risks" ∉ (PlanningAgent.run exGenFail 3).2 ∧
    "determine_next_action" ∉ (PlanningAgent.run exGenFail 3).2 ∧
    (PlanningAgent.run exOk 3).2 = allStepNames := by
  refine ⟨?_, ?_, ?_, ?_⟩
  · exact (orchestrator_order_and_fail_fast.2.2.1 exGenFail 3 gaEx
      (.other "LLM API error 500: boom") rfl rfl).1
  · exact (orchestrator_order_and_fail_fast.2.2.1 exGenFail 3 gaEx
      (.other "LLM API error 500: boom") rfl rfl).2.1
  · exact (orchestrator_order_and_fail_fast.2.2.1 exGenFail 3 gaEx
      (.other "LLM API error 500: boom") rfl rfl).2.2
  · exact orchestrator_order_and_fail_fast.1 exOk 3 ⟨gaEx, [stepEx], "2 weeks", [riskEx], naEx⟩ rfl

/-- Helper: a successful `validateFullResponse` certifies every nested
entity: the goal analysis validates, the `actionSteps` value is a
non-empty array whose every element validates, `totalEstimatedTime` is a
string, the `risks` value is an array (possibly empty) whose every
element validates, and the next action validates. -/
theorem validateFullResponse_ok_components (data : Value) (resp : AgentResponse)
    (h : validateFullResponse data = .ok resp) :
    validateGoalAnalysis (getField data "goalAnalysis") = .ok resp.goalAnalysis ∧
    (∃ steps, getField data "actionSteps" = .arr steps ∧ steps ≠ [] ∧
      validateList validateActionStep steps 0 = .ok resp.actionSteps) ∧
    getField data "totalEstimatedTime" = .str resp.totalEstimatedTime ∧
    (∃ rs, getField data "risks" = .arr rs ∧
      validateList validateRisk rs 0 = .ok resp.risks) ∧
    validateNextAction (getField data "nextImmediateAction") =
      .ok resp.nextImmediateAction := by
  unfold validateFullResponse at h
  split at h
  · exact absurd h (by simp)
  cases hga : validateGoalAnalysis (getField data "goalAnalysis") with
  | error e => rw [hga] at h; exact absurd h (by simp [bind, Except.bind])
  | ok ga =>
  rw [hga] at h
  simp only [bind, Except.bind] at h
  cases hsteps : getField data "actionSteps" with
  | undefined => rw [hsteps] at h; exact absurd h (by simp)
  | null => rw [hsteps] at h; exact absurd h (by simp)
  | bool b => rw [hsteps] at h; exact absurd h (by simp)
  | num q => rw [hsteps] at h; exact absurd h (by simp)
  | str s => rw [hsteps] at h; exact absurd h (by simp)
  | obj fs => rw [hsteps] at h; exact absurd h (by simp)
  | arr steps =>
  rw [hsteps] at h
  simp only [] at h
  by_cases hempty : steps.isEmpty
  · rw [if_pos hempty] at h; exact absurd h (by simp)
  rw [if_neg hempty] at h
  cases hvs : validateList validateActionStep steps 0 with
  | error e => rw [hvs] at h; exact absurd h (by simp [bind, Except.bind])
  | ok actionSteps =>
  rw [hvs] at h
  simp only [bind, Except.bind] at h
  cases htot : getField data "totalEstimatedTime" with
  | undefined => rw [htot] at h; exact absurd h (by simp)
  | null => rw [htot] at h; exact absurd h (by simp)
  | bool b => rw [htot] at h; exact absurd h (by simp)
  | num q => rw [htot] at h; exact absurd h (by simp)
  | arr xs => rw [htot] at h; exact absurd h (by simp)
  | obj fs => rw [htot] at h; exact absurd h (by simp)
  | str tot =>
  rw [htot] at h
  simp only [] at h
  cases hrs : getField data "risks" with
  | undefined => rw [hrs] at h; exact absurd h (by simp)
  | null => rw [hrs] at h; exact absurd h (by simp)
  | bool b => rw [hrs] at h; exact absurd h (by simp)
  | num q => rw [hrs] at h; exact absurd h (by simp)
  | str s => rw [hrs] at h; exact absurd h (by simp)
  | obj fs => rw [hrs] at h; exact absurd h (by simp)
  | arr rs =>
  rw [hrs] at h
  simp only [] at h
  cases hvr : validateList validateRisk rs 0 with
  | error e => rw [hvr] at h; exact absurd h (by simp [bind, Except.bind])
  | ok risks =>
  rw [hvr] at h
  simp only [bind, Except.bind] at h
  cases hna : validateNextAction (getField data "nextImmediateAction") with
  | error e => rw [hna] at h; exact absurd h (by simp [bind, Except.bind])
  | ok next =>
  rw [hna] at h
  simp only [bind, Except.bind, pure, Except.pure] at h
  cases h
  refine ⟨rfl, ⟨steps, rfl, ?_, hvs⟩, rfl, ⟨rs, rfl, hvr⟩, rfl⟩
  exact fun hnil => hempty (by simp [hnil])

/-- Claim C3: an `AgentResponse` is returned by the pipeline only after
the final `validateFullResponse` re-check passes on the assembled value:
its goal analysis, every action step (of a non-empty list), the total
estimated time, every risk (of a possibly-empty list) and the next
immediate action each satisfy their schema; no partial result can be
surfaced. -/
theorem run_response_fully_validated (ex : Executors) (maxRetries : Nat)
    (resp : AgentResponse) (h : (PlanningAgent.run ex maxRetries).1 = .ok resp) :
    ∃ assembled,
      validateFullResponse assembled = .ok resp ∧
      validateGoalAnalysis (getField assembled "goalAnalysis") = .ok resp.goalAnalysis ∧
      (∃ steps, getField assembled "actionSteps" = .arr steps ∧ steps ≠ [] ∧
        validateList validateActionStep steps 0 = .ok resp.actionSteps) ∧
      getField assembled "totalEstimatedTime" = .str resp.totalEstimatedTime ∧
      (∃ rs, getField assembled "risks" = .arr rs ∧
        validateList validateRisk rs 0 = .ok resp.risks) ∧
      validateNextAction (getField assembled "nextImmediateAction") =
        .ok resp.nextImmediateAction := by
  unfold PlanningAgent.run at h
  repeat' split at h
  all_goals try simp at h
  obtain ⟨c1, c2, c3, c4, c5⟩ := validateFullResponse_ok_components _ _ h
  exact ⟨_, h, c1, c2, c3, c4, c5⟩

/-- Claim C3 witness: an all-success stub run returns the concrete
fully-validated response. -/
theorem run_response_fully_validated_witness :
    (PlanningAgent.run exOk 3).1 = .ok ⟨gaEx, [stepEx], "2 weeks", [riskEx], naEx⟩ ∧
    ∃ assembled,
      validateFullResponse assembled = .ok ⟨gaEx, [stepEx], "2 weeks", [riskEx], naEx⟩ := by
  refine ⟨rfl, ?_⟩
  obtain ⟨v, hv, -⟩ :=
    run_response_fully_validated exOk 3 ⟨gaEx, [stepEx], "2 weeks", [riskEx], naEx⟩ rfl
  exact ⟨v, hv⟩

/-- Claim C2 counterexample: a failure arising after input validation
succeeded — here the goal-analysis fragment fails its post-hoc validator
on every retry attempt — reaches the catch block as a `ValidationError`
and is answered with HTTP 400 `VALIDATION_ERROR` (naming the fragment
field), not with HTTP 500 `AGENT_ERROR` as the claim states. -/
theorem posthoc_validation_error_yields_400 :
    validateInput validBody = .ok ⟨"Learn guitar basics", "medium", none⟩ ∧
    serveCore validBody true exBadAnalysis =
      .error (.validation "goalAnalysis.summary" "Must be a meaningful summary") ∧
    serveHandler validBody true exBadAnalysis =
      .failure 400 "VALIDATION_ERROR"
        "Validation error on 'goalAnalysis.summary': Must be a meaningful summary"
        (some "goalAnalysis.summary") := ⟨rfl, rfl, rfl⟩

/-- Claim C2 (amended): the handler's catch block dispatches on the
error's kind alone, not on where it was raised: any propagated
`ValidationError` — whether from the inbound input or from a post-hoc
fragment/final-response validation — yields HTTP 400 with code
`VALIDATION_ERROR` and the error's field, and any other failure yields
HTTP 500 with code `AGENT_ERROR`. -/
theorem serveHandler_status_by_error_kind :
    (∀ body hasApiKey ex f m, serveCore body hasApiKey ex = .error (.validation f m) →
      serveHandler body hasApiKey ex =
        .failure 400 "VALIDATION_ERROR" ("Validation error on '" ++ f ++ "': " ++ m)
          (some f)) ∧
    (∀ body hasApiKey ex m, serveCore body hasApiKey ex = .error (.other m) →
      serveHandler body hasApiKey ex = .failure 500 "AGENT_ERROR" m none) ∧
    (∀ body hasApiKey ex resp, serveCore body hasApiKey ex = .ok resp →
      serveHandler body hasApiKey ex = .success resp) := by
  refine ⟨?_, ?_, ?_⟩
  · intro body k ex f m h
    simp [serveHandler, h]
  · intro body k ex m h
    simp [serveHandler, h]
  · intro body k ex resp h
    simp [serveHandler, h]

/-- Claim C2 witness: the three dispatch cases at concrete runs — a
post-hoc validation failure (400), a missing API key (500), and an
all-success run (200). -/
theorem serveHandler_status_by_error_kind_witness :
    serveHandler validBody true exBadAnalysis =
      .failure 400 "VALIDATION_ERROR"
        "Validation error on 'goalAnalysis.summary': Must be a meaningful summary"
        (some "goalAnalysis.summary") ∧
    serveHandler validBody false (fun _ => exOk) =
      .failure 500 "AGENT_ERROR" "Lovable AI key is not configured" none ∧
    serveHandler validBody true (fun _ => exOk) =
      .success ⟨gaEx, [stepEx], "2 weeks", [riskEx], naEx⟩ := by
  refine ⟨?_, ?_, ?_⟩
  · exact serveHandler_status_by_error_kind.1 validBody true exBadAnalysis
      "goalAnalysis.summary" "Must be a meaningful summary" rfl
  · exact serveHandler_status_by_error_kind.2.1 validBody false (fun _ => exOk)
      "Lovable AI key is not configured" rfl
  · exact serveHandler_status_by_error_kind.2.2 validBody true (fun _ => exOk)
      ⟨gaEx, [stepEx], "2 weeks", [riskEx], naEx⟩ rfl

/-- Claim C6: every malformed request body fails with a `ValidationError`
naming the offending field — a missing (or non-string) goal, an empty or
whitespace-only goal, and an over-1000-character goal name `goal`; a
priority outside the enum names `priority`; a present non-string
`timeAvailable` names `timeAvailable` — and every well-formed body is
narrowed to the `GoalInput` with the goal trimmed. -/
theorem validateInput_field_attribution :
    (∀ body, isObjectTruthy body = true → getField body "goal" = .undefined →
      validateInput body =
        .error (.validation "goal" "Goal is required and must be a non-empty string")) ∧
    (∀ body g, isObjectTruthy body = true → getField body "goal" = .str g →
      jsLength (jsTrim g) = 0 →
      validateInput body =
        .error (.validation "goal" "Goal is required and must be a non-empty string")) ∧
    (∀ body g, isObjectTruthy body = true → getField body "goal" = .str g →
      jsLength (jsTrim g) ≠ 0 → jsLength g > 1000 →
      validateInput body =
        .error (.validation "goal" "Goal must be less than 1000 characters")) ∧
    (∀ body g p, isObjectTruthy body = true → getField body "goal" = .str g →
      jsLength (jsTrim g) ≠ 0 → ¬ jsLength g > 1000 →
      getField body "priority" = .str p → p ∉ validPriorities →
      validateInput body =
        .error (.validation "priority" "Must be one of: low, medium, high, critical")) ∧
    (∀ body g p tv, isObjectTruthy body = true → getField body "goal" = .str g →
      jsLength (jsTrim g) ≠ 0 → ¬ jsLength g > 1000 →
      getField body "priority" = .str p → p ∈ validPriorities →
      getField body "timeAvailable" = tv → tv ≠ .undefined → (∀ s, tv ≠ .str s) →
      validateInput body = .error (.validation "timeAvailable" "Must be a string")) ∧
    (∀ body g p, isObjectTruthy body = true → getField body "goal" = .str g →
      jsLength (jsTrim g) ≠ 0 → ¬ jsLength g > 1000 →
      getField body "priority" = .str p → p ∈ validPriorities →
      getField body "timeAvailable" = .undefined →
      validateInput body = .ok ⟨jsTrim g, p, none⟩) ∧
    (∀ body g p t, isObjectTruthy body = true → getField body "goal" = .str g →
      jsLength (jsTrim g) ≠ 0 → ¬ jsLength g > 1000 →
      getField body "priority" = .str p → p ∈ validPriorities →
      getField body "timeAvailable" = .str t →
      validateInput body = .ok ⟨jsTrim g, p, some t⟩) := by
  refine ⟨?_, ?_, ?_, ?_, ?_, ?_, ?_⟩
  · intro body hobj hg
    simp [validateInput, hobj, hg]
  · intro body g hobj hg hlen
    simp [validateInput, hobj, hg, hlen]
  · intro body g hobj hg hne hlong
    simp [validateInput, hobj, hg, hne, hlong]
  · intro body g p hobj hg hne hshort hp hmem
    simp [validateInput, hobj, hg, hne, hshort, hp, List.contains, List.elem_eq_mem, hmem]
  · intro body g p tv hobj hg hne hshort hp hmem htv hundef hstr
    simp only [validateInput, hobj, hg, hne, hshort, hp, htv]
    cases tv <;> simp_all [List.contains, List.elem_eq_mem]
  · intro body g p hobj hg hne hshort hp hmem htv
    simp [validateInput, hobj, hg, hne, hshort, hp, htv, List.contains, List.elem_eq_mem, hmem]
  · intro body g p t hobj hg hne hshort hp hmem htv
    simp [validateInput, hobj, hg, hne, hshort, hp, htv, List.contains, List.elem_eq_mem, hmem]

/-- Claim C6 witness: concrete malformed bodies for each case, and a
concrete well-formed body. -/
theorem validateInput_field_attribution_witness :
    validateInput (.obj [("priority", .str "low")]) =
      .error (.validation "goal" "Goal is required and must be a non-empty string") ∧
    validateInput (.obj [("goal", .str "   ")]) =
      .error (.validation "goal" "Goal is required and must be a non-empty string") ∧
    validateInput (.obj [("goal", .str (String.mk (List.replicate 1001 'x')))]) =
      .error (.validation "goal" "Goal must be less than 1000 characters") ∧
    validateInput (.obj [("goal", .str "Learn guitar"), ("priority", .str "urgent")]) =
      .error (.validation "priority" "Must be one of: low, medium, high, critical") ∧
    validateInput (.obj [("goal", .str "Learn guitar"), ("priority", .str "medium"),
        ("timeAvailable", .num 5)]) =
      .error (.validation "timeAvailable" "Must be a string") ∧
    validateInput validBody = .ok ⟨"Learn guitar basics", "medium", none⟩ ∧
    validateInput (.obj [("goal", .str " Learn guitar "), ("priority", .str "high"),
        ("timeAvailable", .str "2h")]) =
      .ok ⟨"Learn guitar", "high", some "2h"⟩ := by
  refine ⟨?_, ?_, ?_, ?_, ?_, ?_, ?_⟩
  · exact validateInput_field_attribution.1
      (.obj [("priority", .str "low")]) rfl rfl
  · exact validateInput_field_attribution.2.1
      (.obj [("goal", .str "   ")]) "   " rfl rfl rfl
  · exact validateInput_field_attribution.2.2.1
      (.obj [("goal", .str (String.mk (List.replicate 1001 'x')))])
      (String.mk (List.replicate 1001 'x')) rfl rfl
      (by
        rw [jsTrim_replicate 1001 'x' rfl]
        unfold jsLength
        rw [show (String.mk (List.replicate 1001 'x')).data = List.replicate 1001 'x' from rfl]
        rw [List.length_replicate]
        decide)
      (by
        unfold jsLength
        rw [show (String.mk (List.replicate 1001 'x')).data = List.replicate 1001 'x' from rfl]
        rw [List.length_replicate]
        decide)
  · exact validateInput_field_attribution.2.2.2.1
      (.obj [("goal", .str "Learn guitar"), ("priority", .str "urgent")])
      "Learn guitar" "urgent" rfl rfl (by decide) (by decide) rfl (by decide)
  · exact validateInput_field_attribution.2.2.2.2.1
      (.obj [("goal", .str "Learn guitar"), ("priority", .str "medium"),
        ("timeAvailable", .num 5)])
      "Learn guitar" "medium" (.num 5) rfl rfl (by decide) (by decide) rfl (by decide)
      rfl (by simp) (fun s => by simp)
  · exact validateInput_field_attribution.2.2.2.2.2.1
      validBody "Learn guitar basics" "medium" rfl rfl (by decide) (by decide) rfl
      (by decide) rfl
  · exact validateInput_field_attribution.2.2.2.2.2.2
      (.obj [("goal", .str " Learn guitar "), ("priority", .str "high"),
        ("timeAvailable", .str "2h")])
      " Learn guitar " "high" "2h" rfl rfl (by decide) (by decide) rfl (by decide) rfl

end MindForge
